import Mathlib

/-!
Verification development for the Alpenhorn core: a shallow embedding of the
PKG extraction engine (src/pkg/extract.go) and the client dialing state
machine (src/dialing.go, plus the client persistence code in the alpenhorn
package), with theorems settling the specification's claims about them.

External collaborators (ed25519, IBE, BLS, the box seal, the badger store,
the bloom filter, the key wheel, network fetches) are modelled opaquely:
cryptographic functions are arbitrary function parameters gathered in an
environment record, marshalled byte strings are plain lists of byte values,
and fallible I/O is an oracle in the environment.
-/

/-- Bytes are modelled as lists of natural numbers (each intended < 256). -/
abbrev Bytes : Type := List Nat

/-- ASCII bytes of a string literal, as written by Go's WriteString. -/
def strBytes (s : String) : Bytes :=
  s.toList.map Char.toNat

/-- Big-endian 4-byte encoding of a round number, as written by Go's
binary.Write with binary.BigEndian over a uint32. -/
def be32 (n : Nat) : Bytes :=
  [n / 2 ^ 24 % 256, n / 2 ^ 16 % 256, n / 2 ^ 8 % 256, n % 256]

/-- Modelled from the spec: ValidUsernameToIdentity is not under src/ (it
lives elsewhere in the pkg package); the spec describes it as a total,
deterministic, fixed-width 64-byte canonicalization of a username. We model
it as the username's bytes padded with zero bytes to width 64. -/
def validUsernameToIdentity (username : String) : Bytes :=
  let b := strBytes username
  b.take 64 ++ List.replicate (64 - b.length) 0

/-- Modelled from the spec: UsernameToIdentity validates the username and
then maps it; it rejects malformed usernames. The exact validity predicate
is not under src/; we model it as nonempty and at most 64 bytes. -/
def usernameToIdentity (username : String) : Option Bytes :=
  let b := strBytes username
  if 0 < b.length ∧ b.length ≤ 64 then some (validUsernameToIdentity username) else none

/-! ## PKG extraction messages (src/pkg/extract.go) -/

/-- Embedding of extractArgs. ReturnKey is a Go pointer to a 32-byte array,
so it is modelled as an Option: none is the nil pointer. ServerSigningKey
is set locally by the server before extraction. -/
structure ExtractArgsM where
  round : Nat
  username : String
  returnKey : Option Bytes
  userLongTermKey : Bytes
  serverSigningKey : Bytes
  signature : Bytes
  deriving DecidableEq

/-- Embedding of extractReply. The BLS identity signature is opaque bytes. -/
structure ExtractReplyM where
  round : Nat
  username : String
  encryptedPrivateKey : Bytes
  signature : Bytes
  identitySig : Bytes
  deriving DecidableEq

/-- Embedding of Attestation. The bls.PublicKey AttestKey is external to
src/, so it is modelled by the bytes its MarshalBinary produces. -/
structure AttestationM where
  attestKeyBytes : Bytes
  userIdentity : Bytes
  userLongTermKey : Bytes
  deriving DecidableEq

/-- The signing preimage written by extractArgs.msg() when ReturnKey is the
non-nil pointer to k: the ASCII tag, the server signing key, the big-endian
round, the 64-byte identity, the return key, and the user long-term key. -/
def extractArgsMsgBytes (a : ExtractArgsM) (k : Bytes) : Bytes :=
  strBytes "ExtractArgs" ++ a.serverSigningKey ++ be32 a.round ++
    validUsernameToIdentity a.username ++ k ++ a.userLongTermKey

/-- extractArgs.msg() reads all 32 bytes through the ReturnKey pointer, so
it is defined only when ReturnKey is non-nil; none models the nil
dereference panic. -/
def extractArgsMsg (a : ExtractArgsM) : Option Bytes :=
  a.returnKey.map (extractArgsMsgBytes a)

/-- The signing preimage written by extractReply.msg(). -/
def extractReplyMsg (r : ExtractReplyM) : Bytes :=
  strBytes "ExtractReply" ++ be32 r.round ++ validUsernameToIdentity r.username ++
    r.encryptedPrivateKey

/-- Attestation.Marshal: the marshalled BLS attest key, then the 64-byte
identity, then the long-term key — with no ASCII domain tag. -/
def attestationMarshal (a : AttestationM) : Bytes :=
  a.attestKeyBytes ++ a.userIdentity ++ a.userLongTermKey

/-! ## PKG server state and the extract engine -/

/-- Per-round PKG secrets, as held in srv.rounds. -/
structure RoundStateP where
  masterPrivateKey : Bytes
  blsPrivateKey : Bytes
  blsPublicKey : Bytes
  deriving DecidableEq

/-- The PKG server fields that extraction reads. -/
structure PkgServer where
  rounds : List (Nat × RoundStateP)
  privateKey : Bytes
  publicKey : Bytes
  deriving DecidableEq

/-- The user record read back from the registration entry. -/
structure UserStateP where
  loginKey : Bytes
  deriving DecidableEq

/-- Outcome of looking up the registration entry in the badger store:
found, absent (badger.ErrKeyNotFound), an I/O error from Get, or a record
that fails to unmarshal (both of the last two become ErrDatabaseError). -/
inductive ReadResult where
  | found (u : UserStateP)
  | notFound
  | ioError
  | corrupt
  deriving DecidableEq

/-- Environment of external collaborators for the PKG: the store read
oracle, whether the audit-write transaction fails, the wall clock, and the
opaque cryptographic primitives. -/
structure PkgEnv where
  readUser : Bytes → ReadResult
  updateFails : Bool
  now : Int
  ed25519Verify : Bytes → Bytes → Bytes → Bool
  ed25519Sign : Bytes → Bytes → Bytes
  ibeExtract : Bytes → Bytes → Bytes
  boxSeal : Bytes → Bytes → Bytes
  blsSign : Bytes → Bytes → Bytes

/-- A committed LastExtraction audit record: identity, round, unix time. -/
structure LastExtractionRec where
  identity : Bytes
  round : Nat
  unixTime : Int
  deriving DecidableEq

/-- Error kinds returned by the extract engine. -/
inductive ExtractError where
  | roundNotFound
  | invalidUserLongTermKey
  | invalidUsername
  | notRegistered
  | databaseError
  | invalidSignature
  deriving DecidableEq

/-- Outcome of a call to Server.extract: a reply, an error, or a Go panic
(reached by the nil ReturnKey dereference inside args.Verify). -/
inductive ExtractOutcome where
  | ok (r : ExtractReplyM)
  | err (e : ExtractError)
  | panicked
  deriving DecidableEq

/-- Result of Server.extract together with the post-state of the committed
LastExtraction records (newest first). -/
structure ExtractResult where
  outcome : ExtractOutcome
  db : List LastExtractionRec
  deriving DecidableEq

/-- Embedding of Server.extract (src/pkg/extract.go lines 142-202) with
Server.getUser (lines 204-229) inlined at its call site: look up the round,
check the long-term key length, resolve the username, look up the user,
verify the request signature (which dereferences ReturnKey inside msg()),
commit the LastExtraction record transactionally, then build and sign the
reply. -/
def extract (env : PkgEnv) (srv : PkgServer) (db : List LastExtractionRec)
    (args : ExtractArgsM) : ExtractResult :=
  match List.lookup args.round srv.rounds with
  | none => ⟨.err .roundNotFound, db⟩
  | some st =>
    if args.userLongTermKey.length ≠ 32 then
      ⟨.err .invalidUserLongTermKey, db⟩
    else
      match usernameToIdentity args.username with
      | none => ⟨.err .invalidUsername, db⟩
      | some id =>
        match env.readUser id with
        | .notFound => ⟨.err .notRegistered, db⟩
        | .ioError => ⟨.err .databaseError, db⟩
        | .corrupt => ⟨.err .databaseError, db⟩
        | .found user =>
          match args.returnKey with
          | none => ⟨.panicked, db⟩
          | some k =>
            if ¬ env.ed25519Verify user.loginKey (extractArgsMsgBytes args k) args.signature then
              ⟨.err .invalidSignature, db⟩
            else if env.updateFails then
              ⟨.err .databaseError, db⟩
            else
              let db' := LastExtractionRec.mk id args.round env.now :: db
              let idKeyBytes := env.ibeExtract st.masterPrivateKey id
              let ctxt := env.boxSeal idKeyBytes k
              let attestation : AttestationM :=
                ⟨st.blsPublicKey, id, args.userLongTermKey⟩
              let idSig := env.blsSign st.blsPrivateKey (attestationMarshal attestation)
              let reply0 : ExtractReplyM :=
                ⟨args.round, args.username, ctxt, [], idSig⟩
              let reply : ExtractReplyM :=
                { reply0 with signature := env.ed25519Sign srv.privateKey (extractReplyMsg reply0) }
              ⟨.ok reply, db'⟩

/-! ## Dialing client state (src/dialing.go, persistence from the alpenhorn package) -/

/-- A configured mix server: its signing public key. -/
structure MixServer where
  key : Bytes
  deriving DecidableEq

/-- The dialing configuration snapshot: the ordered mixer chain and the CDN
server address. -/
structure DialingConfig where
  mixServers : List MixServer
  cdnServer : String
  deriving DecidableEq

/-- A signed config chain tip. Its hash function is opaque and
deterministic, so it is modelled as a stored field. -/
structure SignedConfig where
  hash : Nat
  inner : DialingConfig
  deriving DecidableEq

/-- Embedding of dialingRoundState. -/
structure DialingRoundState where
  round : Nat
  config : DialingConfig
  configParent : SignedConfig
  deriving DecidableEq

/-- An outgoing call queued by the application. -/
structure OutgoingCall where
  username : String
  intent : Nat
  deriving DecidableEq

/-- One sender's dial tokens for a round, as returned by the key wheel's
IncomingDialTokens: the tokens list is indexed by intent. -/
structure UserTokens where
  fromUsername : String
  tokens : List Bytes
  deriving DecidableEq

/-- Modelled from the spec: the key wheel is an external collaborator
(section 4.G). Per-round incoming dial tokens plus session keys, both as
association lists. -/
structure Keywheel where
  tokens : List (Nat × List UserTokens)
  sessionKeys : List ((String × Nat) × Bytes)
  deriving DecidableEq

/-- Key wheel IncomingDialTokens(self, round, maxIntent): the tokens
recorded for the round, or none. -/
def Keywheel.incomingDialTokens (w : Keywheel) (round : Nat) : List UserTokens :=
  (List.lookup round w.tokens).getD []

/-- Key wheel SessionKey(fromUsername, round). -/
def Keywheel.sessionKey (w : Keywheel) (fromUsername : String) (round : Nat) : Bytes :=
  (List.lookup (fromUsername, round) w.sessionKeys).getD []

/-- Key wheel EraseKeys(round): drop the round's token entries. -/
def Keywheel.eraseKeys (w : Keywheel) (round : Nat) : Keywheel :=
  ⟨w.tokens.filter (fun p => ! (p.1 == round)), w.sessionKeys⟩

/-- The client fields that the dialing handlers and persistence read and
mutate. -/
structure ClientState where
  username : String
  clientPersistPath : String
  keywheelPersistPath : String
  dialingRounds : List (Nat × DialingRoundState)
  dialingConfig : SignedConfig
  dialingConfigHash : Nat
  wheel : Keywheel
  outgoingCalls : List OutgoingCall
  lastDialingRound : Nat
  deriving DecidableEq

/-- Which of the two on-disk files a write targets. -/
inductive FileKind where
  | clientFile
  | keywheelFile
  deriving DecidableEq

/-- Observable effects of a handler run: application-handler callbacks,
config fetches, atomic file writes, and the onion sent to the coordinator. -/
inductive Event where
  | errorEvent
  | newConfigEvent
  | fetchConfigs
  | sendingCall (username : String) (intent : Nat)
  | receivedCall (username : String) (intent : Nat) (sessionKey : Bytes)
  | onionSent (round : Nat) (onion : Bytes)
  | fileWrite (k : FileKind)
  deriving DecidableEq

/-- Result of a handler run: the new client state, the emitted events in
order, and whether the run ended in a Go panic. -/
structure HandlerOut where
  state : ClientState
  events : List Event
  panicked : Bool
  deriving DecidableEq

/-- coordinator.NewRound. -/
structure NewRound where
  round : Nat
  configHash : Nat
  deriving DecidableEq

/-- coordinator MixSettings (the fields the client reads); the signing
message and onion keys are opaque. -/
structure MixSettings where
  round : Nat
  rawServiceData : Bytes
  onionKeys : List Bytes
  deriving DecidableEq

/-- coordinator.MixRound. -/
structure MixRound where
  mixSettings : MixSettings
  mixSignatures : List Bytes
  deriving DecidableEq

/-- coordinator.MailboxURL. -/
structure MailboxURL where
  round : Nat
  url : String
  numMailboxes : Nat
  deriving DecidableEq

/-- addfriend.ServiceData (the field the dialing client uses). -/
structure ServiceData where
  numMailboxes : Nat
  deriving DecidableEq

/-- A bloom filter is external to src/; it is modelled as the set of
tokens it reports as present, with the zero value reporting none. -/
structure BloomFilter where
  members : List Bytes
  deriving DecidableEq

/-- Test a token against the modelled filter. -/
def BloomFilter.test (f : BloomFilter) (token : Bytes) : Bool :=
  f.members.contains token

/-- The zero-value bloom.Filter left behind when UnmarshalBinary fails. -/
def zeroBloomFilter : BloomFilter := ⟨[]⟩

/-- Environment of external collaborators for the dialing client: config
fetching, persistence failures, mailbox download, bloom decoding, and the
opaque cryptographic and encoding helpers. -/
structure DialEnv where
  fetchChain : SignedConfig → Nat → Option SignedConfig
  persistClientFails : Bool
  persistKeywheelFails : Bool
  parseServiceData : Bytes → Option ServiceData
  signingMessage : MixSettings → Bytes
  ed25519Verify : Bytes → Bytes → Bytes → Bool
  callToken : String → Nat → Bytes
  usernameToMailbox : String → Nat → Nat
  marshalMix : Bytes → Nat → Bytes
  onionSeal : Bytes → Nat → List Bytes → Bytes
  fetchMailbox : String → String → Nat → Option Bytes
  decodeBloom : Bytes → Option BloomFilter

/-- Embedding of Client.persistClient: one atomic write of the client
file when it succeeds. -/
def persistClient (env : DialEnv) : List Event × Bool :=
  if env.persistClientFails then ([], true) else ([.fileWrite .clientFile], false)

/-- Embedding of Client.persistKeywheel: one atomic write of the keywheel
file when it succeeds. -/
def persistKeywheel (env : DialEnv) : List Event × Bool :=
  if env.persistKeywheelFails then ([], true) else ([.fileWrite .keywheelFile], false)

/-- Embedding of Client.persistLocked: write the client file when its path
is set, then the keywheel file when its path is set; the client-side error
takes precedence. -/
def persistLocked (env : DialEnv) (c : ClientState) : List Event × Bool :=
  let (ev1, e1) := if c.clientPersistPath ≠ "" then persistClient env else ([], false)
  let (ev2, e2) := if c.keywheelPersistPath ≠ "" then persistKeywheel env else ([], false)
  (ev1 ++ ev2, e1 || e2)

/-- Embedding of Client.newDialingRound (src/dialing.go lines 44-87). A
recorded round is checked against the announced config hash; otherwise the
cached config is used when hashes match, else a config chain is fetched and
verified, the application is notified, the new config is adopted and
persisted (panic on persistence failure), and the round is recorded. -/
def newDialingRound (env : DialEnv) (c : ClientState) (v : NewRound) : HandlerOut :=
  match List.lookup v.round c.dialingRounds with
  | some st =>
    if st.configParent.hash ≠ v.configHash then ⟨c, [.errorEvent], false⟩
    else ⟨c, [], false⟩
  | none =>
    if v.configHash = c.dialingConfigHash then
      ⟨{ c with dialingRounds :=
           (v.round, ⟨v.round, c.dialingConfig.inner, c.dialingConfig⟩) :: c.dialingRounds },
       [], false⟩
    else
      match env.fetchChain c.dialingConfig v.configHash with
      | none => ⟨c, [.fetchConfigs, .errorEvent], false⟩
      | some newConfig =>
        let c1 := { c with dialingConfig := newConfig, dialingConfigHash := v.configHash }
        let (pEvents, pFailed) := persistLocked env c1
        if pFailed then
          ⟨c1, [.fetchConfigs, .newConfigEvent] ++ pEvents, true⟩
        else
          ⟨{ c1 with dialingRounds :=
               (v.round, ⟨v.round, newConfig.inner, newConfig⟩) :: c1.dialingRounds },
           [.fetchConfigs, .newConfigEvent] ++ pEvents, false⟩

/-- Result of the mixer-chain verification loop in sendDialingOnion:
all signatures verified, a verification failed, or i went past the end of
MixSignatures (a Go index-out-of-range panic). -/
inductive ChainResult where
  | ok
  | failed
  | panicOOB
  deriving DecidableEq

/-- The signature loop of sendDialingOnion: mixer i is checked against
MixSignatures at index i, indexing without a length check. -/
def verifyChain (verify : Bytes → Bytes → Bool) :
    List MixServer → List Bytes → ChainResult
  | [], _ => .ok
  | _ :: _, [] => .panicOOB
  | m :: ms, s :: ss =>
    if verify m.key s then verifyChain verify ms ss else .failed

/-- Embedding of Client.sendDialingOnion (src/dialing.go lines 89-147):
require a recorded round, parse the service data, verify every mixer's
signature over the settings signing message, record the last dialing round,
pop the next outgoing call (real call or cover traffic), seal the onion and
send it to the coordinator. -/
def sendDialingOnion (env : DialEnv) (c : ClientState) (v : MixRound) : HandlerOut :=
  let round := v.mixSettings.round
  match List.lookup round c.dialingRounds with
  | none => ⟨c, [.errorEvent], false⟩
  | some st =>
    match env.parseServiceData v.mixSettings.rawServiceData with
    | none => ⟨c, [.errorEvent], false⟩
    | some sd =>
      let settingsMsg := env.signingMessage v.mixSettings
      match verifyChain (fun key sig => env.ed25519Verify key settingsMsg sig)
          st.config.mixServers v.mixSignatures with
      | .panicOOB => ⟨c, [], true⟩
      | .failed => ⟨c, [.errorEvent], false⟩
      | .ok =>
        let c1 := { c with lastDialingRound := round }
        match c1.outgoingCalls with
        | call :: rest =>
          let c2 := { c1 with outgoingCalls := rest }
          let token := env.callToken call.username round
          let mailbox := env.usernameToMailbox call.username sd.numMailboxes
          let onion := env.onionSeal (env.marshalMix token mailbox) round v.mixSettings.onionKeys
          ⟨c2, [.sendingCall call.username call.intent, .onionSent round onion], false⟩
        | [] =>
          let onion := env.onionSeal (env.marshalMix [] 0) round v.mixSettings.onionKeys
          ⟨c1, [.onionSent round onion], false⟩

/-- The incoming-call notifications produced by testing each sender's dial
tokens (indexed by intent) against the bloom filter, with the session key
drawn from the wheel. -/
def callEvents (wheel : Keywheel) (round : Nat) (filter : BloomFilter)
    (l : List UserTokens) : List Event :=
  l.flatMap (fun u =>
    u.tokens.enum.filterMap (fun p =>
      if filter.test p.2 then
        some (.receivedCall u.fromUsername p.1 (wheel.sessionKey u.fromUsername round))
      else none))

/-- Embedding of Client.scanBloomFilter (src/dialing.go lines 162-199):
silently drop when the round has no state; fetch the mailbox (error and
return on failure); decode the bloom filter, reporting a decode error but
continuing with the zero-value filter; test every dial token for the round
and notify the application of matches; erase the round's wheel keys; then
persist the keywheel, panicking on failure. -/
def scanBloomFilter (env : DialEnv) (c : ClientState) (v : MailboxURL) : HandlerOut :=
  match List.lookup v.round c.dialingRounds with
  | none => ⟨c, [], false⟩
  | some st =>
    let mailboxID := env.usernameToMailbox c.username v.numMailboxes
    match env.fetchMailbox st.config.cdnServer v.url mailboxID with
    | none => ⟨c, [.errorEvent], false⟩
    | some mailbox =>
      let (filter, decodeEvents) :=
        match env.decodeBloom mailbox with
        | none => (zeroBloomFilter, [Event.errorEvent])
        | some f => (f, [])
      let allTokens := c.wheel.incomingDialTokens v.round
      let calls := callEvents c.wheel v.round filter allTokens
      let c1 := { c with wheel := c.wheel.eraseKeys v.round }
      let (pEvents, pFailed) := persistKeywheel env
      if pFailed then ⟨c1, decodeEvents ++ calls, true⟩
      else ⟨c1, decodeEvents ++ calls ++ pEvents, false⟩

/-! ## Helper lemmas -/

/-- Looking up a key in an association list from which every pair with that
key has been filtered out finds nothing. -/
theorem lookup_filter_ne {α : Type} (r : Nat) (l : List (Nat × α)) :
    List.lookup r (l.filter (fun p => ! (p.1 == r))) = none := by
  induction l with
  | nil => rfl
  | cons hd tl ih =>
    obtain ⟨k, v⟩ := hd
    by_cases h : k = r
    · simpa [List.filter_cons, h] using ih
    · have hne : (r == k) = false := by simp [Ne.symm h]
      have hkr : (k == r) = false := by simp [h]
      simp only [List.filter_cons, hkr, Bool.not_false, if_true, List.lookup, hne]
      exact ih

/-- After EraseKeys, the wheel reports no incoming dial tokens for the
erased round. -/
theorem eraseKeys_incomingDialTokens (w : Keywheel) (r : Nat) :
    (w.eraseKeys r).incomingDialTokens r = [] := by
  unfold Keywheel.eraseKeys Keywheel.incomingDialTokens
  simp [lookup_filter_ne]

/-- If some in-range mixer's signature fails verification, the signature
loop ends in the failed state. -/
theorem verifyChain_failed (verify : Bytes → Bytes → Bool)
    (servers : List MixServer) (sigs : List Bytes)
    (h : ∃ (i : Nat) (m : MixServer) (s : Bytes),
      servers[i]? = some m ∧ sigs[i]? = some s ∧ verify m.key s = false) :
    verifyChain verify servers sigs = .failed := by
  induction servers generalizing sigs with
  | nil =>
    obtain ⟨i, m, s, hm, _, _⟩ := h
    simp at hm
  | cons hd tl ih =>
    obtain ⟨i, m, s, hm, hs, hv⟩ := h
    cases sigs with
    | nil => cases i <;> simp at hs
    | cons s0 ss =>
      cases i with
      | zero =>
        simp at hm hs
        subst hm; subst hs
        simp [verifyChain, hv]
      | succ j =>
        simp at hm hs
        by_cases hv0 : verify hd.key s0
        · simp [verifyChain, hv0]
          exact ih ss ⟨j, m, s, hm, hs, hv⟩
        · simp [verifyChain, hv0]

/-- If the signatures list is shorter than the mixer chain and every
in-range signature verifies, the signature loop runs off the end of
MixSignatures. -/
theorem verifyChain_oob (verify : Bytes → Bytes → Bool)
    (servers : List MixServer) (sigs : List Bytes)
    (hlen : sigs.length < servers.length)
    (hall : ∀ (i : Nat) (m : MixServer) (s : Bytes),
      servers[i]? = some m → sigs[i]? = some s → verify m.key s = true) :
    verifyChain verify servers sigs = .panicOOB := by
  induction servers generalizing sigs with
  | nil => simp at hlen
  | cons hd tl ih =>
    cases sigs with
    | nil => simp [verifyChain]
    | cons s0 ss =>
      have h0 : verify hd.key s0 = true := hall 0 hd s0 (by simp) (by simp)
      simp [verifyChain, h0]
      exact ih ss (by simpa using hlen)
        (fun i m s hm hs => hall (i + 1) m s (by simpa using hm) (by simpa using hs))

/-! ## Concrete instances used by witnesses -/

/-- A PKG environment in which every external collaborator succeeds. -/
def pkgEnvEx : PkgEnv where
  readUser := fun _ => .found ⟨List.replicate 32 1⟩
  updateFails := false
  now := 42
  ed25519Verify := fun _ _ _ => true
  ed25519Sign := fun _ _ => []
  ibeExtract := fun _ _ => []
  boxSeal := fun _ _ => []
  blsSign := fun _ _ => []

/-- A PKG server holding round 7. -/
def srvEx : PkgServer := ⟨[(7, ⟨[1], [2], [3]⟩)], [4], [5]⟩

/-- A well-formed extraction request for round 7 by alice. -/
def argsEx : ExtractArgsM :=
  ⟨7, "alice", some (List.replicate 32 2), List.replicate 32 3, [5], []⟩

/-! ## Claim theorems: PKG extraction -/

/-- C1: extraction atomicity. If extract returns a reply then the
post-state holds the LastExtraction record for the request's identity equal
to the request round and the clock read inside the call, committed before
the reply value is constructed; if extract returns any error (including
DatabaseError), the committed records are unchanged and no reply is
produced. -/
theorem extract_atomicity (env : PkgEnv) (srv : PkgServer)
    (db : List LastExtractionRec) (args : ExtractArgsM) :
    (∀ r : ExtractReplyM, (extract env srv db args).outcome = .ok r →
      ∃ id, usernameToIdentity args.username = some id ∧
        (extract env srv db args).db = LastExtractionRec.mk id args.round env.now :: db) ∧
    (∀ e : ExtractError, (extract env srv db args).outcome = .err e →
      (extract env srv db args).db = db) := by
  unfold extract
  repeat' split
  all_goals simp_all

/-- Witness for extract_atomicity: a concrete successful extraction commits
exactly the expected audit record, and a concrete failing extraction leaves
the store untouched. -/
theorem extract_atomicity_witness :
    (extract pkgEnvEx srvEx [] argsEx).db =
      [LastExtractionRec.mk (validUsernameToIdentity "alice") 7 42] ∧
    (extract { pkgEnvEx with updateFails := true } srvEx [] argsEx).db = [] := by
  constructor
  · obtain ⟨id, hid, hdb⟩ :=
      (extract_atomicity pkgEnvEx srvEx [] argsEx).1
        ⟨7, "alice", [], [], []⟩ (by decide)
    have hi : id = validUsernameToIdentity "alice" := by
      have h0 : usernameToIdentity argsEx.username =
          some (validUsernameToIdentity "alice") := by decide
      rw [h0] at hid
      exact (Option.some.inj hid).symm
    rw [hdb, hi]
    rfl
  · exact (extract_atomicity { pkgEnvEx with updateFails := true } srvEx [] argsEx).2
      .databaseError (by decide)

/-- C2: ordered checks and error taxonomy of extract. The first failing
check determines the error kind: an unknown round gives RoundNotFound
regardless of the other fields; then a long-term key whose length is not 32
gives InvalidUserLongTermKey; then a malformed username gives
InvalidUsername; then an absent registration gives NotRegistered and a
backing-store read error gives DatabaseError; then a signature that does
not verify against the stored LoginKey gives InvalidSignature; finally,
with every earlier check passed and the signature verified, a failing
LastExtraction audit-write transaction gives DatabaseError. In every case
the store is left unchanged, so no earlier error is masked by a later
check. -/
theorem extract_error_order (env : PkgEnv) (srv : PkgServer)
    (db : List LastExtractionRec) (args : ExtractArgsM) :
    (List.lookup args.round srv.rounds = none →
      extract env srv db args = ⟨.err .roundNotFound, db⟩) ∧
    (∀ st : RoundStateP, List.lookup args.round srv.rounds = some st →
      args.userLongTermKey.length ≠ 32 →
      extract env srv db args = ⟨.err .invalidUserLongTermKey, db⟩) ∧
    (∀ st : RoundStateP, List.lookup args.round srv.rounds = some st →
      args.userLongTermKey.length = 32 →
      usernameToIdentity args.username = none →
      extract env srv db args = ⟨.err .invalidUsername, db⟩) ∧
    (∀ (st : RoundStateP) (id : Bytes),
      List.lookup args.round srv.rounds = some st →
      args.userLongTermKey.length = 32 →
      usernameToIdentity args.username = some id →
      env.readUser id = .notFound →
      extract env srv db args = ⟨.err .notRegistered, db⟩) ∧
    (∀ (st : RoundStateP) (id : Bytes),
      List.lookup args.round srv.rounds = some st →
      args.userLongTermKey.length = 32 →
      usernameToIdentity args.username = some id →
      env.readUser id = .ioError →
      extract env srv db args = ⟨.err .databaseError, db⟩) ∧
    (∀ (st : RoundStateP) (id : Bytes) (user : UserStateP) (k : Bytes),
      List.lookup args.round srv.rounds = some st →
      args.userLongTermKey.length = 32 →
      usernameToIdentity args.username = some id →
      env.readUser id = .found user →
      args.returnKey = some k →
      env.ed25519Verify user.loginKey (extractArgsMsgBytes args k) args.signature = false →
      extract env srv db args = ⟨.err .invalidSignature, db⟩) ∧
    (∀ (st : RoundStateP) (id : Bytes) (user : UserStateP) (k : Bytes),
      List.lookup args.round srv.rounds = some st →
      args.userLongTermKey.length = 32 →
      usernameToIdentity args.username = some id →
      env.readUser id = .found user →
      args.returnKey = some k →
      env.ed25519Verify user.loginKey (extractArgsMsgBytes args k) args.signature = true →
      env.updateFails = true →
      extract env srv db args = ⟨.err .databaseError, db⟩) := by
  refine ⟨?_, ?_, ?_, ?_, ?_, ?_, ?_⟩
  · intro h
    simp [extract, h]
  · intro st h1 h2
    simp [extract, h1, h2]
  · intro st h1 h2 h3
    simp [extract, h1, h2, h3]
  · intro st id h1 h2 h3 h4
    simp [extract, h1, h2, h3, h4]
  · intro st id h1 h2 h3 h4
    simp [extract, h1, h2, h3, h4]
  · intro st id user k h1 h2 h3 h4 h5 h6
    simp [extract, h1, h2, h3, h4, h5, h6]
  · intro st id user k h1 h2 h3 h4 h5 h6 h7
    simp [extract, h1, h2, h3, h4, h5, h6, h7]

/-- Witness for extract_error_order: each of the seven ordered failing
checks is realized by a concrete request on a concrete server and store,
including the failing audit-write transaction. -/
theorem extract_error_order_witness :
    extract pkgEnvEx srvEx [] { argsEx with round := 99 } = ⟨.err .roundNotFound, []⟩ ∧
    extract pkgEnvEx srvEx [] { argsEx with userLongTermKey := [1] } =
      ⟨.err .invalidUserLongTermKey, []⟩ ∧
    extract pkgEnvEx srvEx [] { argsEx with username := "" } =
      ⟨.err .invalidUsername, []⟩ ∧
    extract { pkgEnvEx with readUser := fun _ => .notFound } srvEx [] argsEx =
      ⟨.err .notRegistered, []⟩ ∧
    extract { pkgEnvEx with readUser := fun _ => .ioError } srvEx [] argsEx =
      ⟨.err .databaseError, []⟩ ∧
    extract { pkgEnvEx with ed25519Verify := fun _ _ _ => false } srvEx [] argsEx =
      ⟨.err .invalidSignature, []⟩ ∧
    extract { pkgEnvEx with updateFails := true } srvEx [] argsEx =
      ⟨.err .databaseError, []⟩ := by
  refine ⟨?_, ?_, ?_, ?_, ?_, ?_, ?_⟩
  · exact (extract_error_order pkgEnvEx srvEx [] _).1 (by decide)
  · exact (extract_error_order pkgEnvEx srvEx [] _).2.1 ⟨[1], [2], [3]⟩ (by decide) (by decide)
  · exact (extract_error_order pkgEnvEx srvEx [] _).2.2.1 ⟨[1], [2], [3]⟩
      (by decide) (by decide) (by decide)
  · exact (extract_error_order _ srvEx [] _).2.2.2.1 ⟨[1], [2], [3]⟩
      (validUsernameToIdentity "alice") (by decide) (by decide) (by decide) (by decide)
  · exact (extract_error_order _ srvEx [] _).2.2.2.2.1 ⟨[1], [2], [3]⟩
      (validUsernameToIdentity "alice") (by decide) (by decide) (by decide) (by decide)
  · exact (extract_error_order _ srvEx [] _).2.2.2.2.2.1 ⟨[1], [2], [3]⟩
      (validUsernameToIdentity "alice") ⟨List.replicate 32 1⟩ (List.replicate 32 2)
      (by decide) (by decide) (by decide) (by decide) (by decide) (by decide)
  · exact (extract_error_order _ srvEx [] _).2.2.2.2.2.2 ⟨[1], [2], [3]⟩
      (validUsernameToIdentity "alice") ⟨List.replicate 32 1⟩ (List.replicate 32 2)
      (by decide) (by decide) (by decide) (by decide) (by decide) (by decide) rfl

/-- C8: totality of extract in ReturnKey. For a request that passes the
round, key-length, username and registration checks, signature
verification evaluates the signing preimage, which dereferences the
ReturnKey pointer: when ReturnKey is nil the call panics rather than
returning, and when ReturnKey is non-nil the call never panics. -/
theorem extract_returnKey_totality (env : PkgEnv) (srv : PkgServer)
    (db : List LastExtractionRec) (args : ExtractArgsM)
    (st : RoundStateP) (id : Bytes) (user : UserStateP)
    (h1 : List.lookup args.round srv.rounds = some st)
    (h2 : args.userLongTermKey.length = 32)
    (h3 : usernameToIdentity args.username = some id)
    (h4 : env.readUser id = .found user) :
    (args.returnKey = none → extract env srv db args = ⟨.panicked, db⟩) ∧
    (∀ k : Bytes, args.returnKey = some k →
      (extract env srv db args).outcome ≠ .panicked) := by
  constructor
  · intro h5
    simp [extract, h1, h2, h3, h4, h5]
  · intro k hk
    simp only [extract, h1, h2, h3, h4, hk]
    by_cases hv : env.ed25519Verify user.loginKey (extractArgsMsgBytes args k) args.signature
    · by_cases hu : env.updateFails <;> simp [hv, hu]
    · simp [hv]

/-- Witness for extract_returnKey_totality: the concrete request with a
nil ReturnKey panics; the same request with a ReturnKey set does not. -/
theorem extract_returnKey_totality_witness :
    extract pkgEnvEx srvEx [] { argsEx with returnKey := none } = ⟨.panicked, []⟩ ∧
    (extract pkgEnvEx srvEx [] argsEx).outcome ≠ .panicked := by
  constructor
  · exact (extract_returnKey_totality pkgEnvEx srvEx [] { argsEx with returnKey := none }
      ⟨[1], [2], [3]⟩ (validUsernameToIdentity "alice") ⟨List.replicate 32 1⟩
      (by decide) (by decide) (by decide) (by decide)).1 rfl
  · exact (extract_returnKey_totality pkgEnvEx srvEx [] argsEx
      ⟨[1], [2], [3]⟩ (validUsernameToIdentity "alice") ⟨List.replicate 32 1⟩
      (by decide) (by decide) (by decide) (by decide)).2 (List.replicate 32 2) rfl

/-- An Attestation whose marshalled BLS attest key is chosen so that its
preimage coincides with an extractReply preimage. -/
def attCollision : AttestationM :=
  ⟨strBytes "ExtractReply" ++ be32 7 ++ validUsernameToIdentity "bob",
   validUsernameToIdentity "alice", List.replicate 32 3⟩

/-- The extractReply instance colliding with attCollision. -/
def replyCollision : ExtractReplyM :=
  ⟨7, "bob", validUsernameToIdentity "alice" ++ List.replicate 32 3, [], []⟩

set_option maxRecDepth 4000 in
/-- C3 counterexample: Attestation.Marshal carries no ASCII domain tag
(it begins with the opaque marshalled BLS key), so a concrete Attestation
and a concrete extractReply share their signing preimage byte for byte. -/
theorem attestation_reply_preimage_collision :
    attestationMarshal attCollision = extractReplyMsg replyCollision := by decide

/-- C3 as amended: domain separation does hold between the two message
types that carry ASCII domain tags. For every extractArgs preimage (with
any non-nil ReturnKey contents) and every extractReply preimage, the two
differ — byte 7 is the tag letter A in one and R in the other. -/
theorem args_reply_preimage_disjoint (a : ExtractArgsM) (k : Bytes) (r : ExtractReplyM) :
    extractArgsMsgBytes a k ≠ extractReplyMsg r := by
  intro h
  have h7 : (extractArgsMsgBytes a k)[7]? = (extractReplyMsg r)[7]? := by rw [h]
  have ha : (extractArgsMsgBytes a k)[7]? = some 65 := rfl
  have hb : (extractReplyMsg r)[7]? = some 82 := rfl
  rw [ha, hb] at h7
  exact absurd h7 (by decide)

/-- Witness for args_reply_preimage_disjoint at a concrete request and a
concrete reply. -/
theorem args_reply_preimage_disjoint_witness :
    extractArgsMsgBytes argsEx (List.replicate 32 2) ≠ extractReplyMsg replyCollision :=
  args_reply_preimage_disjoint argsEx (List.replicate 32 2) replyCollision

/-! ## Concrete dialing-client instances used by witnesses -/

/-- A one-mixer dialing config. -/
def cfgEx : DialingConfig := ⟨[⟨List.replicate 32 9⟩], "cdn"⟩

/-- A signed config tip whose hash is 5. -/
def signedCfgEx : SignedConfig := ⟨5, cfgEx⟩

/-- Round state for round 5 under signedCfgEx. -/
def roundStEx : DialingRoundState := ⟨5, cfgEx, signedCfgEx⟩

/-- A wheel holding one dial token for round 5 from alice at intent 0. -/
def wheelEx : Keywheel := ⟨[(5, [⟨"alice", [[1, 2]]⟩])], [(("alice", 5), [7])]⟩

/-- A client with round 5 configured and both persistence paths set. -/
def clientEx : ClientState :=
  ⟨"bob", "client.state", "client.keywheel", [(5, roundStEx)], signedCfgEx, 5, wheelEx, [], 0⟩

/-- A dialing environment in which every external collaborator succeeds
and every signature verifies. -/
def dialEnvEx : DialEnv where
  fetchChain := fun _ _ => none
  persistClientFails := false
  persistKeywheelFails := false
  parseServiceData := fun _ => some ⟨4⟩
  signingMessage := fun _ => [1]
  ed25519Verify := fun _ _ _ => true
  callToken := fun _ _ => [2]
  usernameToMailbox := fun _ _ => 1
  marshalMix := fun _ _ => [3]
  onionSeal := fun _ _ _ => [4]
  fetchMailbox := fun _ _ _ => some [6]
  decodeBloom := fun _ => some ⟨[[1, 2]]⟩

/-- The mailbox event for round 5. -/
def mailboxEvEx : MailboxURL := ⟨5, "u", 4⟩

/-- The mix event for round 5 with one signature. -/
def mixEvEx : MixRound := ⟨⟨5, [0], [[8]]⟩, [[9]]⟩

/-! ## Claim theorems: dialing client -/

/-- C4 counterexample: on a mailbox event for a configured round, the
Bloom-filter scan persists the keywheel file without persisting the client
state file, even though the client persistence path is set — so the two
on-disk files are not always written together. -/
theorem scan_persists_keywheel_alone :
    Event.fileWrite .keywheelFile ∈ (scanBloomFilter dialEnvEx clientEx mailboxEvEx).events ∧
    Event.fileWrite .clientFile ∉ (scanBloomFilter dialEnvEx clientEx mailboxEvEx).events ∧
    clientEx.clientPersistPath ≠ "" := by decide

/-- C4 as amended: persistLocked does persist the two files together —
whenever both persistence paths are set and the atomic writes succeed, one
persistLocked call writes the client file and the keywheel file — but the
Bloom-filter scan after a mailbox event bypasses persistLocked and writes
only the keywheel file. -/
theorem persistLocked_pairs_files (env : DialEnv) (c : ClientState)
    (hc : c.clientPersistPath ≠ "") (hk : c.keywheelPersistPath ≠ "")
    (h1 : env.persistClientFails = false) (h2 : env.persistKeywheelFails = false) :
    (persistLocked env c).1 = [.fileWrite .clientFile, .fileWrite .keywheelFile] := by
  simp [persistLocked, persistClient, persistKeywheel, hc, hk, h1, h2]

/-- Witness for persistLocked_pairs_files at the concrete client. -/
theorem persistLocked_pairs_files_witness :
    (persistLocked dialEnvEx clientEx).1 =
      [.fileWrite .clientFile, .fileWrite .keywheelFile] :=
  persistLocked_pairs_files dialEnvEx clientEx (by decide) (by decide) rfl rfl

/-- C5: round uniqueness under duplicate newround. When round state is
already recorded, a newround whose config hash differs from the recorded
ConfigParent hash surfaces an application error and changes nothing — the
whole client state, including the rounds map, the cached config and the
cached config hash, is returned unchanged, and no configs are fetched; a
newround with the matching hash changes nothing, emits nothing and fetches
nothing. -/
theorem newround_duplicate (env : DialEnv) (c : ClientState) (v : NewRound)
    (st : DialingRoundState)
    (h : List.lookup v.round c.dialingRounds = some st) :
    (st.configParent.hash ≠ v.configHash →
      newDialingRound env c v = ⟨c, [.errorEvent], false⟩) ∧
    (st.configParent.hash = v.configHash →
      newDialingRound env c v = ⟨c, [], false⟩) := by
  constructor <;> intro hh <;> simp [newDialingRound, h, hh]

/-- Witness for newround_duplicate: a duplicate announcement of round 5
with a different hash errors and leaves the concrete client unchanged; a
duplicate with the recorded hash is a no-op. -/
theorem newround_duplicate_witness :
    newDialingRound dialEnvEx clientEx ⟨5, 6⟩ = ⟨clientEx, [.errorEvent], false⟩ ∧
    newDialingRound dialEnvEx clientEx ⟨5, 5⟩ = ⟨clientEx, [], false⟩ :=
  ⟨(newround_duplicate dialEnvEx clientEx ⟨5, 6⟩ roundStEx (by decide)).1 (by decide),
   (newround_duplicate dialEnvEx clientEx ⟨5, 5⟩ roundStEx (by decide)).2 (by decide)⟩

/-- C6: mixer-chain verification gates the onion. On a mix event for a
configured round whose service data parses, if any in-range mixer
signature fails ed25519 verification against the configured mixer's key
over the settings signing message, the handler surfaces an application
error and sends no onion to the coordinator: the result is exactly the
unchanged state with a single error event. -/
theorem mix_verification_gates_onion (env : DialEnv) (c : ClientState) (v : MixRound)
    (st : DialingRoundState) (sd : ServiceData)
    (h1 : List.lookup v.mixSettings.round c.dialingRounds = some st)
    (h2 : env.parseServiceData v.mixSettings.rawServiceData = some sd)
    (h3 : ∃ (i : Nat) (m : MixServer) (s : Bytes),
      st.config.mixServers[i]? = some m ∧ v.mixSignatures[i]? = some s ∧
      env.ed25519Verify m.key (env.signingMessage v.mixSettings) s = false) :
    sendDialingOnion env c v = ⟨c, [.errorEvent], false⟩ := by
  have hfail := verifyChain_failed
    (fun key sig => env.ed25519Verify key (env.signingMessage v.mixSettings) sig)
    st.config.mixServers v.mixSignatures h3
  simp [sendDialingOnion, h1, h2, hfail]

/-- Witness for mix_verification_gates_onion: with a tampered signature on
the single configured mixer, the concrete client errors and no onion event
appears. -/
theorem mix_verification_gates_onion_witness :
    sendDialingOnion { dialEnvEx with ed25519Verify := fun _ _ _ => false }
      clientEx mixEvEx = ⟨clientEx, [.errorEvent], false⟩ :=
  mix_verification_gates_onion { dialEnvEx with ed25519Verify := fun _ _ _ => false }
    clientEx mixEvEx roundStEx ⟨4⟩ (by decide) rfl
    ⟨0, ⟨List.replicate 32 9⟩, [9], by decide, by decide, rfl⟩

/-- C9: the mix handler indexes MixSignatures without a length check. On a
mix event for a configured round whose service data parses, if fewer
signatures than configured mixers arrive and every in-range signature
verifies, the handler reaches a Go index-out-of-range panic instead of the
application error: the run panics having emitted no events at all. -/
theorem mix_short_signatures_panic (env : DialEnv) (c : ClientState) (v : MixRound)
    (st : DialingRoundState) (sd : ServiceData)
    (h1 : List.lookup v.mixSettings.round c.dialingRounds = some st)
    (h2 : env.parseServiceData v.mixSettings.rawServiceData = some sd)
    (h3 : v.mixSignatures.length < st.config.mixServers.length)
    (h4 : ∀ (i : Nat) (m : MixServer) (s : Bytes),
      st.config.mixServers[i]? = some m → v.mixSignatures[i]? = some s →
      env.ed25519Verify m.key (env.signingMessage v.mixSettings) s = true) :
    sendDialingOnion env c v = ⟨c, [], true⟩ := by
  have hoob := verifyChain_oob
    (fun key sig => env.ed25519Verify key (env.signingMessage v.mixSettings) sig)
    st.config.mixServers v.mixSignatures h3 h4
  simp [sendDialingOnion, h1, h2, hoob]

/-- Witness for mix_short_signatures_panic: the concrete mix event with an
empty signature list against one configured mixer panics. -/
theorem mix_short_signatures_panic_witness :
    sendDialingOnion dialEnvEx clientEx ⟨⟨5, [0], [[8]]⟩, []⟩ = ⟨clientEx, [], true⟩ :=
  mix_short_signatures_panic dialEnvEx clientEx ⟨⟨5, [0], [[8]]⟩, []⟩ roundStEx ⟨4⟩
    (by decide) rfl (by decide) (fun i m s _ hs => by simp at hs)

/-- C7: forward secrecy of the wheel. On a mailbox event for a configured
round whose mailbox download succeeds (whether or not the bloom filter
decodes), the handler erases the round's wheel keys — querying the
resulting wheel for the round's incoming dial tokens yields none — and
then persists the key wheel: if the keywheel persistence fails the client
panics, and if it succeeds the run completes with the keywheel file
written. -/
theorem mailbox_forward_secrecy (env : DialEnv) (c : ClientState) (v : MailboxURL)
    (st : DialingRoundState) (mb : Bytes)
    (h1 : List.lookup v.round c.dialingRounds = some st)
    (h2 : env.fetchMailbox st.config.cdnServer v.url
      (env.usernameToMailbox c.username v.numMailboxes) = some mb) :
    (scanBloomFilter env c v).state.wheel.incomingDialTokens v.round = [] ∧
    (env.persistKeywheelFails = true → (scanBloomFilter env c v).panicked = true) ∧
    (env.persistKeywheelFails = false →
      (scanBloomFilter env c v).panicked = false ∧
      Event.fileWrite .keywheelFile ∈ (scanBloomFilter env c v).events) := by
  have herase := eraseKeys_incomingDialTokens c.wheel v.round
  cases hd : env.decodeBloom mb <;>
    cases hp : env.persistKeywheelFails <;>
      simp [scanBloomFilter, h1, h2, hd, hp, persistKeywheel, herase]

/-- Witness for mailbox_forward_secrecy: after the concrete mailbox event,
round 5 has no tokens left in the wheel, and with a failing keywheel write
the concrete client panics. -/
theorem mailbox_forward_secrecy_witness :
    (scanBloomFilter dialEnvEx clientEx mailboxEvEx).state.wheel.incomingDialTokens 5 = [] ∧
    (scanBloomFilter { dialEnvEx with persistKeywheelFails := true }
      clientEx mailboxEvEx).panicked = true :=
  ⟨(mailbox_forward_secrecy dialEnvEx clientEx mailboxEvEx roundStEx [6]
      (by decide) rfl).1,
   (mailbox_forward_secrecy { dialEnvEx with persistKeywheelFails := true }
      clientEx mailboxEvEx roundStEx [6] (by decide) rfl).2.1 rfl⟩

/-- The same dialing environment with the bloom decoder replaced by one
that returns the zero-value filter. -/
def withZeroBloom (env : DialEnv) : DialEnv :=
  { env with decodeBloom := fun _ => some zeroBloomFilter }

/-- C10: a bloom-filter decode failure does not abort the scan. On a
mailbox event for a configured round whose download succeeds but whose
bytes fail to decode, the run equals the run in which decoding yields the
zero-value filter — same final state (keys erased), same panic behavior
(keywheel persisted) — except that one decode error is first reported to
the application handler. -/
theorem mailbox_decode_failure_continues (env : DialEnv) (c : ClientState)
    (v : MailboxURL) (st : DialingRoundState) (mb : Bytes)
    (h1 : List.lookup v.round c.dialingRounds = some st)
    (h2 : env.fetchMailbox st.config.cdnServer v.url
      (env.usernameToMailbox c.username v.numMailboxes) = some mb)
    (h3 : env.decodeBloom mb = none) :
    (scanBloomFilter env c v).state = (scanBloomFilter (withZeroBloom env) c v).state ∧
    (scanBloomFilter env c v).panicked =
      (scanBloomFilter (withZeroBloom env) c v).panicked ∧
    (scanBloomFilter env c v).events =
      .errorEvent :: (scanBloomFilter (withZeroBloom env) c v).events := by
  cases hp : env.persistKeywheelFails <;>
    simp [scanBloomFilter, withZeroBloom, h1, h2, h3, hp, persistKeywheel]

/-- A concrete dialing environment whose bloom decode fails. -/
def dialEnvDecodeFail : DialEnv := { dialEnvEx with decodeBloom := fun _ => none }

/-- Witness for mailbox_decode_failure_continues at the concrete client
and mailbox event. -/
theorem mailbox_decode_failure_continues_witness :
    (scanBloomFilter dialEnvDecodeFail clientEx mailboxEvEx).events =
      .errorEvent ::
        (scanBloomFilter (withZeroBloom dialEnvDecodeFail) clientEx mailboxEvEx).events :=
  (mailbox_decode_failure_continues dialEnvDecodeFail clientEx mailboxEvEx roundStEx [6]
    (by decide) rfl rfl).2.2
